import Mathlib

/-!
Verification of the harvest/compound pipeline of this repository.

The repository ships two Node scripts that automate fee management for a
concentrated-liquidity position on Base:

* `clanker-harvest.mjs`  — claim Clanker protocol fees, collect LP fees,
  threshold-gate, split into compound/harvest, compound into the position,
  swap the harvest portion to USDC and transfer it to a vault;
* `compound-and-harvest.mjs` — collect V4 LP fees, split, compound,
  swap each currency to USDC (directly for WETH, via a V4 Universal-Router
  hop for other tokens) and transfer the USDC gain to a harvest address.

The scripts are shallowly embedded below.  All JavaScript `BigInt`
arithmetic is modelled by `Int` with `Int.tdiv` (BigInt `/` truncates
toward zero, exactly `Int.tdiv`).  JavaScript floating point numbers that
only flow into USD-value display and threshold comparison are modelled by
`ℚ`.  On-chain reads (balances, allowances, pool state, transaction
status) are fields of an environment record; every mutating transaction
the scripts issue becomes a constructor of `MutTx` appended to a trace in
program order.  Token addresses are abstracted to numeric tags.
-/

set_option maxRecDepth 10000

set_option maxHeartbeats 1000000

namespace MoltbotSkills

/-- Numeric tags standing in for the token / contract addresses used by the
scripts.  Only identity comparisons on these addresses matter. -/
def wethTag : Nat := 0

def usdcTag : Nat := 1

/-- Tag of the Clanker target token (`cfg.token` in clanker-harvest). -/
def clankerTokenTag : Nat := 2

/-- Generic tag for a pool currency that is neither WETH nor USDC. -/
def otherTag : Nat := 3

def permit2Tag : Nat := 10

def swapRouterTag : Nat := 11

def universalRouterTag : Nat := 12

/-- One mutating (state-changing) transaction issued by a pipeline run.
Read-only contract calls are not recorded. -/
inductive MutTx where
  /-- `claim(feeOwner, token)` on the Clanker fee contract. -/
  | claim (token : Nat)
  /-- ERC-20 `approve(spender, maxUint256)`. -/
  | approve (token spender : Nat)
  /-- Permit2 `approve(token, spender, maxUint160, maxUint48)`. -/
  | permit2Approve (token spender : Nat)
  /-- `modifyLiquidities` with DECREASE(0)+CLOSE_CURRENCY actions (fee collection). -/
  | modifyCollect
  /-- `modifyLiquidities` with INCREASE+SETTLE_PAIR actions (compound). -/
  | modifyIncrease (liquidity amount0Max amount1Max : Int)
  /-- SwapRouter02 `exactInputSingle` (V3 single-hop exact input). -/
  | swapV3 (tokenIn tokenOut : Nat) (fee amountIn amountOutMinimum sqrtPriceLimitX96 : Int)
  /-- Universal Router `execute` carrying a single V4 SWAP_EXACT_IN_SINGLE action. -/
  | swapV4 (zeroForOne : Bool) (amountIn amountOutMinimum sqrtPriceLimitX96 : Int)
  /-- ERC-20 `transfer(to, amount)` of USDC to the vault / harvest address. -/
  | transfer (dest : Nat) (amount : Int)
deriving DecidableEq, Repr

/-- `amountOutMinimum` of a swap transaction, `none` for non-swaps. -/
def MutTx.minOut : MutTx → Option Int
  | .swapV3 _ _ _ _ m _ => some m
  | .swapV4 _ _ m _ => some m
  | _ => none

/-- `sqrtPriceLimitX96` of a swap transaction, `none` for non-swaps. -/
def MutTx.priceLimit : MutTx → Option Int
  | .swapV3 _ _ _ _ _ l => some l
  | .swapV4 _ _ _ l => some l
  | _ => none

/-- Whether a transaction is a swap. -/
def MutTx.isSwap : MutTx → Bool
  | .swapV3 _ _ _ _ _ _ => true
  | .swapV4 _ _ _ _ => true
  | _ => false

/-- Whether a transaction is an increase-liquidity (compound) call. -/
def MutTx.isIncrease : MutTx → Bool
  | .modifyIncrease _ _ _ => true
  | _ => false

/-- Whether a transaction is a vault transfer. -/
def MutTx.isTransfer : MutTx → Bool
  | .transfer _ _ => true
  | _ => false

/-- `2^96`, the Q96 fixed-point scale (`const Q96 = 2n ** 96n`). -/
def Q96 : Int := 2 ^ 96

/-- The compound side of the fee split, per currency:
`total * BigInt(compoundPct) / 100n` with BigInt truncating division
(clanker-harvest lines 385-386, compound-and-harvest lines 1266-1267). -/
def splitCompound (total pct : Int) : Int := Int.tdiv (total * pct) 100

/-- The harvest side of the fee split, per currency:
`total - compoundAmount` (clanker-harvest lines 387-388,
compound-and-harvest lines 1268-1269). -/
def splitHarvest (total pct : Int) : Int := total - splitCompound total pct

/-- compound-and-harvest clamps the CLI percentage into `[0,100]`:
`Math.max(0, Math.min(100, argv.compoundPct))` (line 1116). -/
def clampPct (pct : Int) : Int := max 0 (min 100 pct)

/-- Conversion of a raw 18-decimals amount to display units:
`parseFloat(formatEther(x))`, i.e. division by `10^18`, modelled exactly
over `ℚ`. -/
def weiToUnits (amount : Int) : ℚ := (amount : ℚ) / 10 ^ 18

/-- `BigInt('0xffffffffffffffffffffffff')`, the allowance threshold below
which clanker-harvest re-approves a currency to Permit2 (line 311). -/
def permit2Threshold : Int := 2 ^ 96 - 1

/-- Tag for the configured vault / harvest address. -/
def harvestAddressTag : Nat := 20

namespace Clanker

/-- The configuration surface of `clanker-harvest.mjs` (its `cfg` object,
lines 47-58).  The token address is required (the script exits otherwise),
so it is not represented; `tokenId` and `harvestAddress` only matter
through their presence. -/
structure Cfg where
  hasTokenId : Bool
  hasHarvestAddress : Bool
  /-- `parseInt(getArg('compound-pct', …))` — NOT clamped to [0,100]. -/
  compoundPct : Int
  minUsd : ℚ
  slippage : ℚ
  dryRun : Bool
  skipClaim : Bool
  skipLp : Bool

/-- `const harvestPct = 100 - cfg.compoundPct` (line 60). -/
def Cfg.harvestPct (cfg : Cfg) : Int := 100 - cfg.compoundPct

/-- `const wantCompound = cfg.compoundPct > 0 && cfg.tokenId` (line 61). -/
def Cfg.wantCompound (cfg : Cfg) : Prop := 0 < cfg.compoundPct ∧ cfg.hasTokenId = true

/-- `const wantHarvest = harvestPct > 0 && cfg.harvestAddress` (line 62). -/
def Cfg.wantHarvest (cfg : Cfg) : Prop := 0 < cfg.harvestPct ∧ cfg.hasHarvestAddress = true

instance (cfg : Cfg) : Decidable cfg.wantCompound := by unfold Cfg.wantCompound; infer_instance

instance (cfg : Cfg) : Decidable cfg.wantHarvest := by unfold Cfg.wantHarvest; infer_instance

/-- Everything one `clanker-harvest.mjs` run observes from outside:
on-chain reads (fee availability, balances, allowances, pool state),
oracle prices, and whether transaction submissions succeed.  Balance
fields come in before/after pairs because the script measures amounts
exclusively through balance deltas. -/
structure Env where
  availWeth : Int
  availToken : Int
  ethPrice : ℚ
  tokenPrice : ℚ
  /-- Permit2 allowances of pool currency0 / currency1 (collect step). -/
  allowPermit2c0 : Int
  allowPermit2c1 : Int
  wethBeforeCollect : Int
  tokenBeforeCollect : Int
  wethAfterCollect : Int
  tokenAfterCollect : Int
  sqrtPriceX96 : Int
  sqrtLower : Int
  sqrtUpper : Int
  wethIsCurrency0 : Bool
  /-- Whether the increase-liquidity submission succeeds (else the catch
  block at line 491 swallows the error). -/
  compoundSendOk : Bool
  /-- WETH allowance towards the swap router. -/
  allowSwapRouter : Int
  /-- Whether the WETH→USDC swap submission succeeds. -/
  wethSwapSendOk : Bool
  usdcBefore : Int
  usdcAfter : Int

/-- Pool currency0 of the position as a token tag. -/
def currency0 (env : Env) : Nat := if env.wethIsCurrency0 then wethTag else clankerTokenTag

/-- Pool currency1 of the position as a token tag. -/
def currency1 (env : Env) : Nat := if env.wethIsCurrency0 then clankerTokenTag else wethTag

/-- STEP 1 of `clanker-harvest.mjs` (lines 242-280): claim Clanker protocol
fees.  Returns the issued transactions and `(claimedWeth, claimedToken)`.
Claims are per-token transactions, token first, then WETH; zero-available
tokens are not claimed; dry-run records the available amounts without
transacting. -/
def claimStep (cfg : Cfg) (env : Env) : List MutTx × Int × Int :=
  if cfg.skipClaim then ([], 0, 0)
  else if env.availWeth = 0 ∧ env.availToken = 0 then ([], 0, 0)
  else if cfg.dryRun then ([], env.availWeth, env.availToken)
  else
    ((if 0 < env.availToken then [MutTx.claim clankerTokenTag] else []) ++
      (if 0 < env.availWeth then [MutTx.claim wethTag] else []),
      (if 0 < env.availWeth then env.availWeth else 0),
      (if 0 < env.availToken then env.availToken else 0))

/-- STEP 2 of `clanker-harvest.mjs` (lines 289-361): collect LP fees via a
decrease-by-zero plus close-currency batch, measuring the received amounts
as wallet balance deltas.  Returns the issued transactions and
`(lpWeth, lpToken)`.  Skipped entirely without a position id or with
`--skip-lp`; dry-run issues nothing and leaves the deltas at zero. -/
def collectStep (cfg : Cfg) (env : Env) : List MutTx × Int × Int :=
  if ¬cfg.skipLp ∧ cfg.hasTokenId = true then
    if cfg.dryRun then ([], 0, 0)
    else
      ((if env.allowPermit2c0 < permit2Threshold then
          [MutTx.approve (currency0 env) permit2Tag] else []) ++
        (if env.allowPermit2c1 < permit2Threshold then
          [MutTx.approve (currency1 env) permit2Tag] else []) ++
        [MutTx.modifyCollect],
        env.wethAfterCollect - env.wethBeforeCollect,
        env.tokenAfterCollect - env.tokenBeforeCollect)
  else ([], 0, 0)

/-- The inline liquidity-from-amounts computation of the compound step
(lines 448-456), on BigInt with truncating division. -/
def liquidityCalc (sqrtPriceX96 sqrtLower sqrtUpper amount0 amount1 : Int) : Int :=
  if sqrtPriceX96 ≤ sqrtLower then
    Int.tdiv (amount0 * sqrtLower * sqrtUpper) ((sqrtUpper - sqrtLower) * Q96)
  else if sqrtUpper ≤ sqrtPriceX96 then
    Int.tdiv (amount1 * Q96) (sqrtUpper - sqrtLower)
  else
    let liq0 := Int.tdiv (amount0 * sqrtPriceX96 * sqrtUpper)
      ((sqrtUpper - sqrtPriceX96) * Q96)
    let liq1 := Int.tdiv (amount1 * Q96) (sqrtPriceX96 - sqrtLower)
    if liq0 < liq1 then liq0 else liq1

/-- STEP 3 of `clanker-harvest.mjs` (lines 397-495): compound the split
amounts back into the position.  Computes the liquidity delta from the
current pool price; when it is `≤ 0` the step is skipped with a warning
and no transaction; otherwise an increase-liquidity batch is submitted
with slippage-buffered maximum amounts.  Returns the issued transactions
and the computed liquidity (`none` when the computation was never run). -/
def compoundStep (cfg : Cfg) (env : Env) (compoundWeth compoundToken : Int) :
    List MutTx × Option Int :=
  if cfg.wantCompound ∧ (0 < compoundWeth ∨ 0 < compoundToken) then
    if cfg.dryRun then ([], none)
    else
      let amount0 := if env.wethIsCurrency0 then compoundWeth else compoundToken
      let amount1 := if env.wethIsCurrency0 then compoundToken else compoundWeth
      let liquidity := liquidityCalc env.sqrtPriceX96 env.sqrtLower env.sqrtUpper amount0 amount1
      if liquidity ≤ 0 then ([], some liquidity)
      else
        let slippageMul : Int := Int.floor ((100 + cfg.slippage * 2) * 100)
        let amount0Max := Int.tdiv (amount0 * slippageMul) 10000
        let amount1Max := Int.tdiv (amount1 * slippageMul) 10000
        ((if env.compoundSendOk then
            [MutTx.modifyIncrease liquidity amount0Max amount1Max] else []),
          some liquidity)
  else ([], none)

/-- STEPS 4-5 of `clanker-harvest.mjs` (lines 500-565): swap the harvest
portion of WETH to USDC (the token leg is not implemented and stays in the
wallet), measure the USDC gained as the balance delta around the swap
phase, and transfer exactly that gain to the vault when positive.
Returns the issued transactions and `harvestedUsdc`. -/
def swapTransferStep (cfg : Cfg) (env : Env) (harvestWeth harvestToken : Int) :
    List MutTx × Int :=
  if cfg.wantHarvest ∧ (0 < harvestWeth ∨ 0 < harvestToken) then
    if cfg.dryRun then ([], 0)
    else
      let swapTxs :=
        if 0 < harvestWeth then
          (if env.allowSwapRouter < harvestWeth then
            [MutTx.approve wethTag swapRouterTag] else []) ++
          (if env.wethSwapSendOk then
            [MutTx.swapV3 wethTag usdcTag 500 harvestWeth 0 0] else [])
        else []
      let harvestedUsdc := env.usdcAfter - env.usdcBefore
      (swapTxs ++
        (if 0 < harvestedUsdc then [MutTx.transfer harvestAddressTag harvestedUsdc] else []),
        harvestedUsdc)
  else ([], 0)

/-- The observable outcome of one `clanker-harvest.mjs` run: the ordered
trace of mutating transactions plus the figures the script computes and
reports. -/
structure Out where
  txs : List MutTx
  totalWeth : Int
  totalToken : Int
  totalUsd : ℚ
  nothingToProcess : Bool
  belowThreshold : Bool
  compoundWeth : Int
  compoundToken : Int
  harvestWeth : Int
  harvestToken : Int
  liquidity : Option Int
  harvestedUsdc : Int

/-- `totalWeth = claimedWeth + lpWeth` (line 366). -/
def totalWethOf (cfg : Cfg) (env : Env) : Int :=
  (claimStep cfg env).2.1 + (collectStep cfg env).2.1

/-- `totalToken = claimedToken + lpToken` (line 367). -/
def totalTokenOf (cfg : Cfg) (env : Env) : Int :=
  (claimStep cfg env).2.2 + (collectStep cfg env).2.2

/-- The USD total used for the threshold decision (line 368):
`parseFloat(formatEther(totalWeth)) * ethPrice + parseFloat(formatEther(totalToken)) * tokenPrice`. -/
def totalUsdOf (cfg : Cfg) (env : Env) : ℚ :=
  weiToUnits (totalWethOf cfg env) * env.ethPrice +
    weiToUnits (totalTokenOf cfg env) * env.tokenPrice

/-- The `main` pipeline of `clanker-harvest.mjs` (lines 201-582): claim,
collect, aggregate the totals, apply the `--min-usd` threshold gate, split
by `compoundPct`, compound, swap and transfer.  The threshold check sits
AFTER the claim and collect steps, exactly as in the source (line 379). -/
def main (cfg : Cfg) (env : Env) : Out :=
  let cl := claimStep cfg env
  let lp := collectStep cfg env
  let totalWeth := totalWethOf cfg env
  let totalToken := totalTokenOf cfg env
  let totalUsd := totalUsdOf cfg env
  if totalWeth = 0 ∧ totalToken = 0 then
    { txs := cl.1 ++ lp.1, totalWeth := totalWeth, totalToken := totalToken,
      totalUsd := totalUsd, nothingToProcess := true, belowThreshold := false,
      compoundWeth := 0, compoundToken := 0, harvestWeth := 0, harvestToken := 0,
      liquidity := none, harvestedUsdc := 0 }
  else if 0 < cfg.minUsd ∧ totalUsd < cfg.minUsd then
    { txs := cl.1 ++ lp.1, totalWeth := totalWeth, totalToken := totalToken,
      totalUsd := totalUsd, nothingToProcess := false, belowThreshold := true,
      compoundWeth := 0, compoundToken := 0, harvestWeth := 0, harvestToken := 0,
      liquidity := none, harvestedUsdc := 0 }
  else
    let compoundWeth := splitCompound totalWeth cfg.compoundPct
    let compoundToken := splitCompound totalToken cfg.compoundPct
    let harvestWeth := splitHarvest totalWeth cfg.compoundPct
    let harvestToken := splitHarvest totalToken cfg.compoundPct
    let comp := compoundStep cfg env compoundWeth compoundToken
    let swp := swapTransferStep cfg env harvestWeth harvestToken
    { txs := cl.1 ++ lp.1 ++ comp.1 ++ swp.1, totalWeth := totalWeth,
      totalToken := totalToken, totalUsd := totalUsd, nothingToProcess := false,
      belowThreshold := false, compoundWeth := compoundWeth,
      compoundToken := compoundToken, harvestWeth := harvestWeth,
      harvestToken := harvestToken, liquidity := comp.2, harvestedUsdc := swp.2 }

end Clanker

namespace CompoundHarvest

/-- Classification of a token address by the identity comparisons
`swapToUsdc` performs: the settlement asset (USDC), the base wrapped asset
(WETH), or anything else. -/
inductive SwapTok where
  | usdc
  | weth
  | other
deriving DecidableEq, Repr

/-- Token tag of a classified token. -/
def SwapTok.tag : SwapTok → Nat
  | .usdc => usdcTag
  | .weth => wethTag
  | .other => otherTag

/-- `const liq0 = (a0, sqrtA, sqrtB) => (a0 * ((sqrtA * sqrtB) / Q96)) / (sqrtB - sqrtA)`
(compound-and-harvest line 762), BigInt truncating division. -/
def liq0 (a0 sqrtA sqrtB : Int) : Int :=
  Int.tdiv (a0 * Int.tdiv (sqrtA * sqrtB) Q96) (sqrtB - sqrtA)

/-- `const liq1 = (a1, sqrtA, sqrtB) => (a1 * Q96) / (sqrtB - sqrtA)`
(line 763). -/
def liq1 (a1 sqrtA sqrtB : Int) : Int := Int.tdiv (a1 * Q96) (sqrtB - sqrtA)

/-- `getLiquidityForAmounts` (compound-and-harvest lines 760-772): sorts
the two bounds, then returns the token0 formula at or below the lower
bound, the minimum of the two per-token formulas strictly inside the
range, and the token1 formula at or above the upper bound. -/
def getLiquidityForAmounts (sqrtPriceX96 sqrtPriceA sqrtPriceB amount0 amount1 : Int) : Int :=
  let s := if sqrtPriceB < sqrtPriceA then (sqrtPriceB, sqrtPriceA) else (sqrtPriceA, sqrtPriceB)
  if sqrtPriceX96 ≤ s.1 then liq0 amount0 s.1 s.2
  else if sqrtPriceX96 < s.2 then
    let l0 := liq0 amount0 sqrtPriceX96 s.2
    let l1 := liq1 amount1 s.1 sqrtPriceX96
    if l0 < l1 then l0 else l1
  else liq1 amount1 s.1 s.2

/-- Environment of one `swapToUsdc` invocation: the allowances it reads,
the wallet's WETH balance around the V4 hop, and whether the V4 swap
transaction succeeds. -/
structure SwapEnv where
  /-- ERC-20 allowance of the token towards Permit2. -/
  erc20AllowPermit2 : Int
  /-- Permit2 allowance of the token towards the Universal Router. -/
  permit2AllowRouter : Int
  /-- Whether the token is the pool's currency0 (decides `zeroForOne`). -/
  tokenIsCurrency0 : Bool
  /-- Whether the V4 swap receipt has success status (else line 1023 throws). -/
  v4Ok : Bool
  wethBefore : Int
  wethAfter : Int
  /-- WETH allowance towards SwapRouter02 (direct branch). -/
  wethAllowRouter : Int

/-- `swapViaV4ToWeth` (lines 932-1028): approve the token to Permit2 and
the Universal Router on Permit2 when allowances are short, then execute a
single V4 SWAP_EXACT_IN_SINGLE with `amountOutMinimum = 0` and
`sqrtPriceLimitX96 = 0`.  Returns the issued transactions and whether the
swap receipt succeeded (on failure the source throws — after the
transaction was already broadcast). -/
def swapViaV4ToWeth (env : SwapEnv) (amount : Int) : List MutTx × Bool :=
  ((if env.erc20AllowPermit2 < amount then [MutTx.approve otherTag permit2Tag] else []) ++
    (if env.permit2AllowRouter < amount then
      [MutTx.permit2Approve otherTag universalRouterTag] else []) ++
    [MutTx.swapV4 env.tokenIsCurrency0 amount 0 0],
    env.v4Ok)

/-- The behaviour of the recursive call `swapToUsdc(…, WETH, amount, …)`
(line 1095): that call re-enters `swapToUsdc` with the WETH token, which
runs the amount guard and then the direct WETH→USDC branch.  It is
factored out here so the recursion of the source unfolds to one
application of this function; `swapToUsdc_weth_spec` below proves it
coincides with `swapToUsdc` on WETH. -/
def swapToUsdcWeth (env : SwapEnv) (amount : Int) : List MutTx × Bool :=
  if amount ≤ 0 then ([], true)
  else
    ((if env.wethAllowRouter < amount then [MutTx.approve wethTag swapRouterTag] else []) ++
      [MutTx.swapV3 wethTag usdcTag 500 amount 0 0], true)

/-- `swapToUsdc` (lines 1030-1102): USDC passes through; WETH swaps
directly to USDC on SwapRouter02 (`exactInputSingle`, fee tier 500,
`amountOutMinimum = 0`, `sqrtPriceLimitX96 = 0`); any other token is first
swapped to WETH via the V4 Universal Router, the WETH gained is measured
as the wallet balance delta around that hop, and `swapToUsdc` recurses on
WETH with exactly that delta (`swapToUsdcWeth`, the unfolding of that
recursive call) — no second hop when the delta is not positive.  Returns
the issued transactions and whether the call returned normally (`false`
models a thrown error). -/
def swapToUsdc (env : SwapEnv) (tok : SwapTok) (amount : Int) (slippagePct : ℚ)
    (hasPoolKey : Bool) : List MutTx × Bool :=
  if amount ≤ 0 then ([], true)
  else
    match tok with
    | .usdc => ([], true)
    | .weth =>
        ((if env.wethAllowRouter < amount then [MutTx.approve wethTag swapRouterTag] else []) ++
          [MutTx.swapV3 wethTag usdcTag 500 amount 0 0], true)
    | .other =>
        if ¬hasPoolKey then ([], false)
        else
          let v4 := swapViaV4ToWeth env amount
          if ¬v4.2 then (v4.1, false)
          else
            let wethGained := env.wethAfter - env.wethBefore
            if 0 < wethGained then
              let second := swapToUsdcWeth env wethGained
              (v4.1 ++ second.1, second.2)
            else (v4.1, true)

/-- The CLI configuration of `compound-and-harvest.mjs` (yargs options,
lines 623-630).  `tokenId` and `harvestAddress` are required by yargs. -/
structure Cfg where
  /-- Raw `--compound-pct` value, clamped by `main` before use. -/
  compoundPct : Int
  dryRun : Bool
  slippage : ℚ

/-- Everything one `compound-and-harvest.mjs` run observes from outside. -/
structure Env where
  /-- Whether `ownerOf(tokenId)` equals the wallet address. -/
  isOwner : Bool
  positionLiquidity : Int
  currency0Kind : SwapTok
  currency1Kind : SwapTok
  token0Before : Int
  token1Before : Int
  token0After : Int
  token1After : Int
  sqrtPriceX96 : Int
  /-- `tickToSqrtPriceX96(tickLower/Upper)` — this script computes these
  with JavaScript floating point (`Math.sqrt(Math.pow(1.0001, tick))`,
  line 757), so the converted bounds enter the model as environment
  values. -/
  sqrtPriceLower : Int
  sqrtPriceUpper : Int
  /-- Whether the collect receipt has success status. -/
  collectOk : Bool
  /-- Permit2 allowances read by `addLiquidity`. -/
  allowPermit2c0 : Int
  allowPermit2c1 : Int
  /-- Whether the increase-liquidity receipt has success status. -/
  increaseOk : Bool
  swapEnv0 : SwapEnv
  swapEnv1 : SwapEnv
  usdcBefore : Int
  usdcAfter : Int
  transferOk : Bool

/-- `addLiquidity` (lines 859-921): recompute the liquidity delta from the
current price and the compound-eligible amounts; return
`{success: false, reason: 'zero-liquidity'}` without any transaction when
it is `≤ 0`; otherwise approve shortfalls to Permit2 and submit an
increase-liquidity + settle-pair batch with `amount * 150n / 100n` maxima.
Returns (transactions, success, computed liquidity). -/
def addLiquidity (env : Env) (amount0 amount1 : Int) : List MutTx × Bool × Int :=
  let newLiquidity := getLiquidityForAmounts env.sqrtPriceX96 env.sqrtPriceLower
    env.sqrtPriceUpper amount0 amount1
  if newLiquidity ≤ 0 then ([], false, newLiquidity)
  else
    let approvals :=
      (if 0 < amount0 ∧ env.allowPermit2c0 < amount0 then
        [MutTx.approve env.currency0Kind.tag permit2Tag] else []) ++
      (if 0 < amount1 ∧ env.allowPermit2c1 < amount1 then
        [MutTx.approve env.currency1Kind.tag permit2Tag] else [])
    let amount0Max := if 0 < amount0 then Int.tdiv (amount0 * 150) 100 else 0
    let amount1Max := if 0 < amount1 then Int.tdiv (amount1 * 150) 100 else 0
    (approvals ++ [MutTx.modifyIncrease newLiquidity amount0Max amount1Max],
      env.increaseOk, newLiquidity)

/-- The observable outcome of one `compound-and-harvest.mjs` run. -/
structure Out where
  txs : List MutTx
  fees0 : Int
  fees1 : Int
  compound0 : Int
  compound1 : Int
  harvest0 : Int
  harvest1 : Int
  compoundSuccess : Bool
  usdcHarvested : Int
  transferred : Bool

/-- Outcome of a run that stopped before the split computation. -/
def earlyOut (txs : List MutTx) (fees0 fees1 : Int) : Out :=
  { txs := txs, fees0 := fees0, fees1 := fees1, compound0 := 0, compound1 := 0,
    harvest0 := 0, harvest1 := 0, compoundSuccess := false, usdcHarvested := 0,
    transferred := false }

/-- The `main` pipeline of `compound-and-harvest.mjs` (lines 1106-1378):
verify ownership, exit on zero position liquidity, exit before any
transaction in dry-run, collect fees, measure them as balance deltas,
split by the clamped percentage, compound the compound side (failure
degrades to continuing), swap each currency's harvest side to USDC, and
transfer the USDC balance delta gained during the swap phase to the
harvest address when positive. -/
def main (cfg : Cfg) (env : Env) : Out :=
  if ¬env.isOwner then earlyOut [] 0 0
  else if env.positionLiquidity = 0 then earlyOut [] 0 0
  else if cfg.dryRun then earlyOut [] 0 0
  else if ¬env.collectOk then earlyOut [MutTx.modifyCollect] 0 0
  else
    let fees0 := env.token0After - env.token0Before
    let fees1 := env.token1After - env.token1Before
    if fees0 ≤ 0 ∧ fees1 ≤ 0 then earlyOut [MutTx.modifyCollect] fees0 fees1
    else
      let pct := clampPct cfg.compoundPct
      let compound0 := splitCompound fees0 pct
      let compound1 := splitCompound fees1 pct
      let harvest0 := splitHarvest fees0 pct
      let harvest1 := splitHarvest fees1 pct
      let comp :=
        if 0 < compound0 ∨ 0 < compound1 then
          let al := addLiquidity env compound0 compound1
          (al.1, al.2.1)
        else ([], false)
      if harvest0 ≤ 0 ∧ harvest1 ≤ 0 then
        { txs := [MutTx.modifyCollect] ++ comp.1, fees0 := fees0, fees1 := fees1,
          compound0 := compound0, compound1 := compound1, harvest0 := harvest0,
          harvest1 := harvest1, compoundSuccess := comp.2, usdcHarvested := 0,
          transferred := false }
      else
        let s0 := if 0 < harvest0 then
          swapToUsdc env.swapEnv0 env.currency0Kind harvest0 cfg.slippage true
          else ([], true)
        let s1 := if 0 < harvest1 then
          swapToUsdc env.swapEnv1 env.currency1Kind harvest1 cfg.slippage true
          else ([], true)
        let usdcHarvested := env.usdcAfter - env.usdcBefore
        if usdcHarvested ≤ 0 then
          { txs := [MutTx.modifyCollect] ++ comp.1 ++ s0.1 ++ s1.1, fees0 := fees0,
            fees1 := fees1, compound0 := compound0, compound1 := compound1,
            harvest0 := harvest0, harvest1 := harvest1, compoundSuccess := comp.2,
            usdcHarvested := usdcHarvested, transferred := false }
        else
          { txs := [MutTx.modifyCollect] ++ comp.1 ++ s0.1 ++ s1.1 ++
              [MutTx.transfer harvestAddressTag usdcHarvested],
            fees0 := fees0, fees1 := fees1, compound0 := compound0,
            compound1 := compound1, harvest0 := harvest0, harvest1 := harvest1,
            compoundSuccess := comp.2, usdcHarvested := usdcHarvested,
            transferred := env.transferOk }

/-- The possible shapes of a transaction issued by `CompoundHarvest.main`:
the collect batch, approvals, an increase-liquidity batch, a V4 or V3 swap
with zero `amountOutMinimum` and zero `sqrtPriceLimitX96`, or the final
transfer of the positive USDC balance delta to the harvest address. -/
abbrev mainTxShape (env : Env) (tx : MutTx) : Prop :=
  tx = MutTx.modifyCollect ∨
  (∃ t s, tx = MutTx.approve t s) ∨ (∃ t s, tx = MutTx.permit2Approve t s) ∨
  (∃ l x y, tx = MutTx.modifyIncrease l x y) ∨
  (∃ zf x, tx = MutTx.swapV4 zf x 0 0) ∨
  (∃ x, tx = MutTx.swapV3 wethTag usdcTag 500 x 0 0) ∨
  (tx = MutTx.transfer harvestAddressTag (env.usdcAfter - env.usdcBefore) ∧
    0 < env.usdcAfter - env.usdcBefore)

end CompoundHarvest

/-- A trading pair as parsed from the external price-feed HTTP response,
restricted to the fields the scripts inspect: whether `chainId === 'base'`,
whether the quote token symbol is USDC, and `parseFloat(p.priceUsd)`. -/
structure DexPair where
  chainIdIsBase : Bool
  quoteSymbolIsUsdc : Bool
  priceUsd : ℚ

namespace Clanker

/-- `getEthPrice` of clanker-harvest (lines 159-166): `none` models a
failed fetch / thrown parse; on success the first pair on Base quoted in
USDC is used; any failure or absence of a match yields the hardcoded 2700. -/
def getEthPrice (resp : Option (List DexPair)) : ℚ :=
  match resp with
  | none => 2700
  | some pairs =>
    match pairs.find? (fun p => p.chainIdIsBase && p.quoteSymbolIsUsdc) with
    | some p => p.priceUsd
    | none => 2700

/-- `getTokenPrice` of clanker-harvest (lines 168-175): uses `pairs[0]`;
any failure or empty pair list yields 0. -/
def getTokenPrice (resp : Option (List DexPair)) : ℚ :=
  match resp with
  | none => 0
  | some pairs =>
    match pairs.head? with
    | some p => p.priceUsd
    | none => 0

end Clanker

namespace CompoundHarvest

/-- `getEthPrice` of compound-and-harvest (lines 790-797): same lookup as
the clanker-harvest version but with hardcoded fallback 3200. -/
def getEthPrice (resp : Option (List DexPair)) : ℚ :=
  match resp with
  | none => 3200
  | some pairs =>
    match pairs.find? (fun p => p.chainIdIsBase && p.quoteSymbolIsUsdc) with
    | some p => p.priceUsd
    | none => 3200

/-- `getTokenPrice` of compound-and-harvest (lines 799-806): first pair on
Base; any failure or absence yields 0. -/
def getTokenPrice (resp : Option (List DexPair)) : ℚ :=
  match resp with
  | none => 0
  | some pairs =>
    match pairs.find? (fun p => p.chainIdIsBase) with
    | some p => p.priceUsd
    | none => 0

end CompoundHarvest

/-! Concrete configurations and environments used to evaluate the
pipelines on specific inputs. -/

/-- An inert clanker-harvest environment: nothing available, all balances
and allowances zero, every submission succeeding. -/
def inertEnv : Clanker.Env :=
  { availWeth := 0, availToken := 0, ethPrice := 0, tokenPrice := 0,
    allowPermit2c0 := 0, allowPermit2c1 := 0, wethBeforeCollect := 0,
    tokenBeforeCollect := 0, wethAfterCollect := 0, tokenAfterCollect := 0,
    sqrtPriceX96 := 0, sqrtLower := 0, sqrtUpper := 0, wethIsCurrency0 := true,
    compoundSendOk := true, allowSwapRouter := 0, wethSwapSendOk := true,
    usdcBefore := 0, usdcAfter := 0 }

/-- clanker-harvest invoked with an out-of-range `--compound-pct 150`. -/
def cfgPct150 : Clanker.Cfg :=
  { hasTokenId := false, hasHarvestAddress := false, compoundPct := 150,
    minUsd := 0, slippage := 1, dryRun := false, skipClaim := false, skipLp := false }

/-- Environment with 100 wei of claimable WETH protocol fees. -/
def envWeth100 : Clanker.Env := { inertEnv with availWeth := 100 }

/-- clanker-harvest invoked with `--min-usd 10` and harvest-only split. -/
def cfgMinUsd10 : Clanker.Cfg :=
  { hasTokenId := false, hasHarvestAddress := true, compoundPct := 0,
    minUsd := 10, slippage := 1, dryRun := false, skipClaim := false, skipLp := true }

/-- Environment with 5 wei of claimable token fees, worth $0 at the
observed prices. -/
def envToken5 : Clanker.Env := { inertEnv with availToken := 5 }

/-- clanker-harvest invoked live with a 50/50 split on a position. -/
def cfgSplit50Live : Clanker.Cfg :=
  { hasTokenId := true, hasHarvestAddress := false, compoundPct := 50,
    minUsd := 0, slippage := 1, dryRun := false, skipClaim := false, skipLp := false }

/-- The same invocation with `--dry-run`. -/
def cfgSplit50Dry : Clanker.Cfg := { cfgSplit50Live with dryRun := true }

/-- Environment with 100 wei of claimable WETH fees and a further 100 wei
of WETH received from LP fee collection (observable only by executing the
collection). -/
def envClaimAndLp : Clanker.Env :=
  { inertEnv with availWeth := 100, wethAfterCollect := 100 }

/-- clanker-harvest invoked live, harvest-only, with a vault configured. -/
def cfgHarvestOnly : Clanker.Cfg :=
  { hasTokenId := false, hasHarvestAddress := true, compoundPct := 0,
    minUsd := 0, slippage := 1, dryRun := false, skipClaim := false, skipLp := true }

/-- Environment in which 100 wei of WETH fees are claimed and the swap
phase raises the USDC balance from 7 to 57. -/
def envSwapGain : Clanker.Env :=
  { inertEnv with
    availWeth := 100, allowSwapRouter := 1000, usdcBefore := 7, usdcAfter := 57 }

/-- An inert per-swap environment for `swapToUsdc`. -/
def inertSwapEnv : CompoundHarvest.SwapEnv :=
  { erc20AllowPermit2 := 0, permit2AllowRouter := 0, tokenIsCurrency0 := false,
    v4Ok := true, wethBefore := 0, wethAfter := 0, wethAllowRouter := 0 }

/-- An inert compound-and-harvest environment: owned position with
liquidity, no fees accrued, every receipt succeeding. -/
def inertEnv2 : CompoundHarvest.Env :=
  { isOwner := true, positionLiquidity := 1000, currency0Kind := .weth,
    currency1Kind := .other, token0Before := 0, token1Before := 0,
    token0After := 0, token1After := 0, sqrtPriceX96 := 0, sqrtPriceLower := 0,
    sqrtPriceUpper := 0, collectOk := true, allowPermit2c0 := 0,
    allowPermit2c1 := 0, increaseOk := true, swapEnv0 := inertSwapEnv,
    swapEnv1 := inertSwapEnv, usdcBefore := 0, usdcAfter := 0, transferOk := true }

/-- compound-and-harvest invoked with a 50/50 split. -/
def cfgHalfSplit : CompoundHarvest.Cfg :=
  { compoundPct := 50, dryRun := false, slippage := 1 }

/-- compound-and-harvest invoked with `--compound-pct 0`. -/
def cfgAllHarvest : CompoundHarvest.Cfg :=
  { compoundPct := 0, dryRun := false, slippage := 1 }

/-- compound-and-harvest invoked with a 50/50 split in dry-run. -/
def cfgHalfSplitDry : CompoundHarvest.Cfg :=
  { compoundPct := 50, dryRun := true, slippage := 1 }

/-- Environment in which collection yields 100 wei of currency0 (WETH)
fees but the pool state makes the computed compound liquidity 0: the
current sqrt price 2 sits strictly between the bounds 1 and 3, and both
per-token liquidity formulas truncate to 0.  The swap phase then raises
the USDC balance from 0 to 49. -/
def envZeroLiquidity : CompoundHarvest.Env :=
  { inertEnv2 with
    token0After := 100, sqrtPriceX96 := 2, sqrtPriceLower := 1,
    sqrtPriceUpper := 3, swapEnv0 := { inertSwapEnv with wethAllowRouter := 1000 },
    usdcAfter := 49 }

/-- Environment in which collection yields 100 wei of currency0 (WETH)
fees and the swap phase raises the USDC balance from 7 to 11. -/
def env2SwapGain : CompoundHarvest.Env :=
  { inertEnv2 with
    token0After := 100, swapEnv0 := { inertSwapEnv with wethAllowRouter := 1000 },
    usdcBefore := 7, usdcAfter := 11 }

/-- A `swapToUsdc` environment for a token with only a V4 venue: ample
allowances, a successful V4 hop, and a wallet WETH balance rising from 10
to 40 around it. -/
def swapEnvTwoHop : CompoundHarvest.SwapEnv :=
  { erc20AllowPermit2 := 1000, permit2AllowRouter := 1000, tokenIsCurrency0 := false,
    v4Ok := true, wethBefore := 10, wethAfter := 40, wethAllowRouter := 1000 }

/-- The same environment with no WETH gained from the V4 hop. -/
def swapEnvNoGain : CompoundHarvest.SwapEnv := { swapEnvTwoHop with wethAfter := 10 }

theorem splitCompound_nonneg (total pct : Int) (ht : 0 ≤ total) (hp : 0 ≤ pct) :
    0 ≤ splitCompound total pct := by
  unfold splitCompound
  exact Int.tdiv_nonneg (mul_nonneg ht hp) (by norm_num)

theorem splitCompound_le_total (total pct : Int) (ht : 0 ≤ total)
    (hp0 : 0 ≤ pct) (hp : pct ≤ 100) : splitCompound total pct ≤ total := by
  unfold splitCompound
  have h1 : total * pct ≤ total * 100 := mul_le_mul_of_nonneg_left hp ht
  have h2 : Int.tdiv (total * pct) 100 ≤ Int.tdiv (total * 100) 100 := by
    have hnn : 0 ≤ total * pct := mul_nonneg ht hp0
    rw [Int.tdiv_eq_ediv hnn (by norm_num), Int.tdiv_eq_ediv (le_trans hnn h1) (by norm_num)]
    exact Int.ediv_le_ediv (by norm_num) h1
  have h3 : Int.tdiv (total * 100) 100 = total := by
    rw [Int.mul_tdiv_cancel _ (by norm_num)]
  omega

theorem claimStep_txs_shape (cfg : Clanker.Cfg) (env : Clanker.Env) :
    ∀ tx ∈ (Clanker.claimStep cfg env).1,
      tx = MutTx.claim clankerTokenTag ∨ tx = MutTx.claim wethTag := by
  intro tx h
  unfold Clanker.claimStep at h
  repeat' first
  | (split_ifs at h)
  | (dsimp only at h)
  all_goals simp only [List.mem_append, List.mem_singleton, List.not_mem_nil,
    or_false, false_or] at h
  all_goals tauto

theorem collectStep_txs_shape (cfg : Clanker.Cfg) (env : Clanker.Env) :
    ∀ tx ∈ (Clanker.collectStep cfg env).1,
      (∃ t, tx = MutTx.approve t permit2Tag) ∨ tx = MutTx.modifyCollect := by
  intro tx h
  unfold Clanker.collectStep at h
  repeat' first
  | (split_ifs at h)
  | (dsimp only at h)
  all_goals simp only [List.mem_append, List.mem_singleton, List.mem_cons,
    List.not_mem_nil, or_false, false_or, List.nil_append] at h
  all_goals aesop

theorem compoundStep_txs_shape (cfg : Clanker.Cfg) (env : Clanker.Env) (cW cT : Int) :
    ∀ tx ∈ (Clanker.compoundStep cfg env cW cT).1,
      ∃ l a b, tx = MutTx.modifyIncrease l a b := by
  intro tx h
  unfold Clanker.compoundStep at h
  repeat' first
  | (split_ifs at h)
  | (dsimp only at h)
  all_goals simp only [List.mem_singleton, List.not_mem_nil] at h
  all_goals exact ⟨_, _, _, h⟩

theorem swapTransferStep_txs_shape (cfg : Clanker.Cfg) (env : Clanker.Env) (hW hT : Int) :
    ∀ tx ∈ (Clanker.swapTransferStep cfg env hW hT).1,
      tx = MutTx.approve wethTag swapRouterTag ∨
      tx = MutTx.swapV3 wethTag usdcTag 500 hW 0 0 ∨
      (tx = MutTx.transfer harvestAddressTag (env.usdcAfter - env.usdcBefore) ∧
        0 < env.usdcAfter - env.usdcBefore) := by
  intro tx h
  unfold Clanker.swapTransferStep at h
  repeat' first
  | (split_ifs at h)
  | (dsimp only at h)
  all_goals simp only [List.mem_append, List.mem_singleton, List.not_mem_nil,
    or_false, false_or, List.nil_append, List.append_nil] at h
  all_goals tauto

theorem clankerMain_txs_split (cfg : Clanker.Cfg) (env : Clanker.Env) :
    ∀ tx ∈ (Clanker.main cfg env).txs,
      tx ∈ (Clanker.claimStep cfg env).1 ∨ tx ∈ (Clanker.collectStep cfg env).1 ∨
      tx ∈ (Clanker.compoundStep cfg env
        (splitCompound (Clanker.totalWethOf cfg env) cfg.compoundPct)
        (splitCompound (Clanker.totalTokenOf cfg env) cfg.compoundPct)).1 ∨
      tx ∈ (Clanker.swapTransferStep cfg env
        (splitHarvest (Clanker.totalWethOf cfg env) cfg.compoundPct)
        (splitHarvest (Clanker.totalTokenOf cfg env) cfg.compoundPct)).1 := by
  intro tx h
  simp only [Clanker.main] at h
  repeat' first
  | (split_ifs at h)
  | (dsimp only at h)
  all_goals simp only [List.mem_append] at h
  all_goals tauto

theorem claimStep_dry (cfg : Clanker.Cfg) (env : Clanker.Env) (h : cfg.dryRun = true) :
    (Clanker.claimStep cfg env).1 = [] := by
  unfold Clanker.claimStep
  split_ifs <;> simp_all

theorem collectStep_dry (cfg : Clanker.Cfg) (env : Clanker.Env) (h : cfg.dryRun = true) :
    (Clanker.collectStep cfg env).1 = [] := by
  unfold Clanker.collectStep
  split_ifs <;> simp_all

theorem compoundStep_dry (cfg : Clanker.Cfg) (env : Clanker.Env) (cW cT : Int)
    (h : cfg.dryRun = true) : (Clanker.compoundStep cfg env cW cT).1 = [] := by
  unfold Clanker.compoundStep
  split_ifs <;> simp_all

theorem swapTransferStep_dry (cfg : Clanker.Cfg) (env : Clanker.Env) (hW hT : Int)
    (h : cfg.dryRun = true) : (Clanker.swapTransferStep cfg env hW hT).1 = [] := by
  unfold Clanker.swapTransferStep
  split_ifs <;> simp_all

/-- C1: for every compound percentage in [0,100] and every pair of
per-currency totals T0, T1 ≥ 0, the split computes
`compound = T * pct / 100` with truncating integer division and
`harvest = T - compound`, independently per currency, so
`compound + harvest = T` holds exactly, with both parts nonnegative and
the compound part bounded by the total. -/
theorem C1_split_conservation (pct T0 T1 : Int)
    (hp0 : 0 ≤ pct) (hp1 : pct ≤ 100) (h0 : 0 ≤ T0) (h1 : 0 ≤ T1) :
    splitCompound T0 pct + splitHarvest T0 pct = T0 ∧
    splitCompound T1 pct + splitHarvest T1 pct = T1 ∧
    splitCompound T0 pct = Int.tdiv (T0 * pct) 100 ∧
    splitHarvest T0 pct = T0 - splitCompound T0 pct ∧
    0 ≤ splitCompound T0 pct ∧ splitCompound T0 pct ≤ T0 ∧
    0 ≤ splitHarvest T0 pct ∧
    0 ≤ splitCompound T1 pct ∧ splitCompound T1 pct ≤ T1 ∧
    0 ≤ splitHarvest T1 pct := by
  have c0 := splitCompound_nonneg T0 pct h0 hp0
  have c1 := splitCompound_nonneg T1 pct h1 hp0
  have d0 := splitCompound_le_total T0 pct h0 hp0 hp1
  have d1 := splitCompound_le_total T1 pct h1 hp0 hp1
  unfold splitHarvest splitCompound at *
  refine ⟨by omega, by omega, rfl, by omega, c0, d0, by omega, c1, d1, by omega⟩

/-- Witness for C1 at pct = 50, T0 = 3, T1 = 7. -/
theorem C1_split_conservation_witness :
    (0 ≤ (50 : Int) ∧ (50 : Int) ≤ 100 ∧ 0 ≤ (3 : Int) ∧ 0 ≤ (7 : Int)) ∧
    splitCompound 3 50 + splitHarvest 3 50 = 3 := by
  refine ⟨by decide, ?_⟩
  exact (C1_split_conservation 50 3 7 (by decide) (by decide) (by decide) (by decide)).1

/-- C5: `getLiquidityForAmounts`, given a current sqrt price and sorted
lower/upper bounds, returns the token0-only formula when the price is at
or below the lower bound, the token1-only formula when at or above the
upper bound, and the minimum of the two per-token formulas strictly in
between; the inline liquidity computation of clanker-harvest branches the
same way on its own formulas. -/
theorem C5_liquidity_branches (sqrtP sqrtA sqrtB a0 a1 : Int) (hAB : sqrtA < sqrtB) :
    (sqrtP ≤ sqrtA →
      CompoundHarvest.getLiquidityForAmounts sqrtP sqrtA sqrtB a0 a1 =
        CompoundHarvest.liq0 a0 sqrtA sqrtB) ∧
    (sqrtA < sqrtP → sqrtP < sqrtB →
      CompoundHarvest.getLiquidityForAmounts sqrtP sqrtA sqrtB a0 a1 =
        min (CompoundHarvest.liq0 a0 sqrtP sqrtB) (CompoundHarvest.liq1 a1 sqrtA sqrtP)) ∧
    (sqrtB ≤ sqrtP →
      CompoundHarvest.getLiquidityForAmounts sqrtP sqrtA sqrtB a0 a1 =
        CompoundHarvest.liq1 a1 sqrtA sqrtB) ∧
    (sqrtP ≤ sqrtA →
      Clanker.liquidityCalc sqrtP sqrtA sqrtB a0 a1 =
        Int.tdiv (a0 * sqrtA * sqrtB) ((sqrtB - sqrtA) * Q96)) ∧
    (sqrtA < sqrtP → sqrtP < sqrtB →
      Clanker.liquidityCalc sqrtP sqrtA sqrtB a0 a1 =
        min (Int.tdiv (a0 * sqrtP * sqrtB) ((sqrtB - sqrtP) * Q96))
          (Int.tdiv (a1 * Q96) (sqrtP - sqrtA))) ∧
    (sqrtB ≤ sqrtP →
      Clanker.liquidityCalc sqrtP sqrtA sqrtB a0 a1 =
        Int.tdiv (a1 * Q96) (sqrtB - sqrtA)) := by
  unfold CompoundHarvest.getLiquidityForAmounts Clanker.liquidityCalc
  have hswap : ¬(sqrtB < sqrtA) := by omega
  refine ⟨?_, ?_, ?_, ?_, ?_, ?_⟩
  · intro h
    simp only [if_neg hswap, if_pos h]
  · intro h1 h2
    simp only [if_neg hswap, if_neg (by omega : ¬sqrtP ≤ sqrtA), if_pos h2]
    rcases lt_or_ge (CompoundHarvest.liq0 a0 sqrtP sqrtB) (CompoundHarvest.liq1 a1 sqrtA sqrtP)
      with hc | hc
    · simp only [if_pos hc]
      omega
    · simp only [if_neg (by omega : ¬CompoundHarvest.liq0 a0 sqrtP sqrtB <
        CompoundHarvest.liq1 a1 sqrtA sqrtP)]
      omega
  · intro h
    simp only [if_neg hswap, if_neg (by omega : ¬sqrtP ≤ sqrtA),
      if_neg (by omega : ¬sqrtP < sqrtB)]
  · intro h
    simp only [if_pos h]
  · intro h1 h2
    simp only [if_neg (by omega : ¬sqrtP ≤ sqrtA), if_neg (by omega : ¬sqrtB ≤ sqrtP)]
    rcases lt_or_ge (Int.tdiv (a0 * sqrtP * sqrtB) ((sqrtB - sqrtP) * Q96))
      (Int.tdiv (a1 * Q96) (sqrtP - sqrtA)) with hc | hc
    · simp only [if_pos hc]
      omega
    · simp only [if_neg (by omega : ¬Int.tdiv (a0 * sqrtP * sqrtB) ((sqrtB - sqrtP) * Q96) <
        Int.tdiv (a1 * Q96) (sqrtP - sqrtA))]
      omega
  · intro h
    simp only [if_neg (by omega : ¬sqrtP ≤ sqrtA), if_pos h]

/-- Witness for C5 at the lower boundary: price exactly at the lower
bound 10 with upper bound 20 uses the token0 formula. -/
theorem C5_liquidity_branches_witness :
    ((10 : Int) < 20 ∧ (10 : Int) ≤ 10) ∧
    CompoundHarvest.getLiquidityForAmounts 10 10 20 6 7 =
      CompoundHarvest.liq0 6 10 20 := by
  refine ⟨by decide, ?_⟩
  exact (C5_liquidity_branches 10 10 20 6 7 (by decide)).1 (by decide)

/-- C10: on a failed price-feed request (`none`) or a response with no
matching trading pair, the base-asset price lookup returns the hardcoded
constant (2700 in clanker-harvest, 3200 in compound-and-harvest) and the
token price lookup returns 0, instead of raising an error; a matching
pair's price is passed through. -/
theorem C10_price_fallbacks :
    Clanker.getEthPrice none = 2700 ∧
    Clanker.getEthPrice (some []) = 2700 ∧
    Clanker.getEthPrice (some [⟨false, false, 5⟩]) = 2700 ∧
    Clanker.getEthPrice (some [⟨true, true, 5⟩]) = 5 ∧
    Clanker.getTokenPrice none = 0 ∧
    Clanker.getTokenPrice (some []) = 0 ∧
    Clanker.getTokenPrice (some [⟨false, false, 5⟩]) = 5 ∧
    CompoundHarvest.getEthPrice none = 3200 ∧
    CompoundHarvest.getEthPrice (some []) = 3200 ∧
    CompoundHarvest.getEthPrice (some [⟨false, false, 5⟩]) = 3200 ∧
    CompoundHarvest.getEthPrice (some [⟨true, true, 5⟩]) = 5 ∧
    CompoundHarvest.getTokenPrice none = 0 ∧
    CompoundHarvest.getTokenPrice (some []) = 0 ∧
    CompoundHarvest.getTokenPrice (some [⟨false, true, 5⟩]) = 0 ∧
    CompoundHarvest.getTokenPrice (some [⟨true, false, 5⟩]) = 5 := by
  decide

/-- C8 counterexample: clanker-harvest does not clamp or reject the
user-supplied percentage.  Invoked with `--compound-pct 150` on a 100-wei
WETH total, the split uses 150 directly: the compound amount 150 exceeds
the total and the harvest amount is -50, negative. -/
theorem C8_pct_unclamped_counterexample :
    cfgPct150.compoundPct = 150 ∧
    (Clanker.main cfgPct150 envWeth100).totalWeth = 100 ∧
    (Clanker.main cfgPct150 envWeth100).compoundWeth = 150 ∧
    (Clanker.main cfgPct150 envWeth100).harvestWeth = -50 := by
  decide

/-- C8 amended: compound-and-harvest clamps the user input into [0,100]
(`Math.max(0, Math.min(100, argv.compoundPct))`) before splitting, so
there the used percentage lies in [0,100], the per-currency compound
amount never exceeds the total and the harvest amount is never negative;
clanker-harvest performs no such clamping. -/
theorem C8_clamped_split_in_range (pct T0 T1 : Int) (h0 : 0 ≤ T0) (h1 : 0 ≤ T1) :
    0 ≤ clampPct pct ∧ clampPct pct ≤ 100 ∧
    splitCompound T0 (clampPct pct) ≤ T0 ∧ 0 ≤ splitHarvest T0 (clampPct pct) ∧
    splitCompound T1 (clampPct pct) ≤ T1 ∧ 0 ≤ splitHarvest T1 (clampPct pct) := by
  have ha : 0 ≤ clampPct pct := le_max_left 0 _
  have hb : clampPct pct ≤ 100 := by unfold clampPct; omega
  have d0 := splitCompound_le_total T0 (clampPct pct) h0 ha hb
  have d1 := splitCompound_le_total T1 (clampPct pct) h1 ha hb
  unfold splitHarvest at *
  exact ⟨ha, hb, d0, by omega, d1, by omega⟩

/-- Witness for C8 amended at pct = 150, T0 = 100, T1 = 0. -/
theorem C8_clamped_split_in_range_witness :
    (0 ≤ (100 : Int) ∧ 0 ≤ (0 : Int)) ∧ splitCompound 100 (clampPct 150) ≤ 100 :=
  ⟨by decide, (C8_clamped_split_in_range 150 100 0 (by decide) (by decide)).2.2.1⟩

/-- The USD total clanker-harvest computes for `cfgMinUsd10` in
`envToken5` is 0: 5 wei of a token priced at $0. -/
theorem envToken5_below_threshold :
    Clanker.totalUsdOf cfgMinUsd10 envToken5 < cfgMinUsd10.minUsd := by
  norm_num [Clanker.totalUsdOf, Clanker.totalWethOf, Clanker.totalTokenOf,
    Clanker.claimStep, Clanker.collectStep, cfgMinUsd10, envToken5, inertEnv,
    weiToUnits]

/-- C3 counterexample: with `--min-usd 10` and fees worth $0, the run is
flagged below-threshold, yet it is not true that zero mutating
transactions were issued — the claim transaction for the 5 wei of
available token fees was sent before the threshold check. -/
theorem C3_claim_before_threshold_counterexample :
    0 < cfgMinUsd10.minUsd ∧
    Clanker.totalUsdOf cfgMinUsd10 envToken5 < cfgMinUsd10.minUsd ∧
    (Clanker.main cfgMinUsd10 envToken5).belowThreshold = true ∧
    MutTx.claim clankerTokenTag ∈ (Clanker.main cfgMinUsd10 envToken5).txs := by
  refine ⟨by decide, envToken5_below_threshold, ?_, ?_⟩ <;>
  · simp only [Clanker.main]
    rw [if_neg (by decide : ¬(Clanker.totalWethOf cfgMinUsd10 envToken5 = 0 ∧
        Clanker.totalTokenOf cfgMinUsd10 envToken5 = 0)),
      if_pos ⟨by decide, envToken5_below_threshold⟩]
    try decide

/-- C3 amended: when `minUsd > 0`, the computed USD total is below it and
some fees were observed, clanker-harvest flags the result below-threshold
and issues no compound, swap, or transfer transaction — but the claim and
collection transactions issued before the threshold check still stand. -/
theorem C3_threshold_stops_downstream (cfg : Clanker.Cfg) (env : Clanker.Env)
    (hmin : 0 < cfg.minUsd)
    (hlt : Clanker.totalUsdOf cfg env < cfg.minUsd)
    (hne : ¬(Clanker.totalWethOf cfg env = 0 ∧ Clanker.totalTokenOf cfg env = 0)) :
    (Clanker.main cfg env).belowThreshold = true ∧
    ∀ tx ∈ (Clanker.main cfg env).txs,
      tx.isIncrease = false ∧ tx.isSwap = false ∧ tx.isTransfer = false := by
  have hmain : Clanker.main cfg env =
      { txs := (Clanker.claimStep cfg env).1 ++ (Clanker.collectStep cfg env).1,
        totalWeth := Clanker.totalWethOf cfg env,
        totalToken := Clanker.totalTokenOf cfg env,
        totalUsd := Clanker.totalUsdOf cfg env, nothingToProcess := false,
        belowThreshold := true, compoundWeth := 0, compoundToken := 0,
        harvestWeth := 0, harvestToken := 0, liquidity := none,
        harvestedUsdc := 0 } := by
    simp only [Clanker.main]
    rw [if_neg hne, if_pos ⟨hmin, hlt⟩]
  rw [hmain]
  refine ⟨rfl, ?_⟩
  intro tx h
  simp only [List.mem_append] at h
  rcases h with h | h
  · rcases claimStep_txs_shape cfg env tx h with rfl | rfl <;> exact ⟨rfl, rfl, rfl⟩
  · rcases collectStep_txs_shape cfg env tx h with ⟨t, rfl⟩ | rfl <;> exact ⟨rfl, rfl, rfl⟩

/-- Witness for C3 amended at the concrete below-threshold run. -/
theorem C3_threshold_stops_downstream_witness :
    (0 < cfgMinUsd10.minUsd ∧
      ¬(Clanker.totalWethOf cfgMinUsd10 envToken5 = 0 ∧
        Clanker.totalTokenOf cfgMinUsd10 envToken5 = 0)) ∧
    (Clanker.main cfgMinUsd10 envToken5).belowThreshold = true :=
  ⟨⟨by decide, by decide⟩,
    (C3_threshold_stops_downstream cfgMinUsd10 envToken5 (by decide)
      envToken5_below_threshold (by decide)).1⟩

/-- C4 counterexample: the dry-run figures do NOT match the live run on
the same inputs.  With 100 wei claimable and 100 wei collectable from the
position, the live run splits a 200-wei total (compound side 100) while
the dry run — which cannot observe LP collection amounts without
executing — splits a 100-wei total (compound side 50). -/
theorem C4_dry_run_figures_counterexample :
    cfgSplit50Dry = { cfgSplit50Live with dryRun := true } ∧
    (Clanker.main cfgSplit50Dry envClaimAndLp).compoundWeth = 50 ∧
    (Clanker.main cfgSplit50Live envClaimAndLp).compoundWeth = 100 ∧
    (Clanker.main cfgSplit50Dry envClaimAndLp).compoundWeth ≠
      (Clanker.main cfgSplit50Live envClaimAndLp).compoundWeth := by
  refine ⟨rfl, by decide, by decide, by decide⟩

/-- C4 amended: with the dry-run flag set, both pipelines issue zero
mutating transactions, regardless of every other configuration and
environment value. -/
theorem C4_dry_run_no_mutations (cfg : Clanker.Cfg) (env : Clanker.Env)
    (cfg2 : CompoundHarvest.Cfg) (env2 : CompoundHarvest.Env)
    (h1 : cfg.dryRun = true) (h2 : cfg2.dryRun = true) :
    (Clanker.main cfg env).txs = [] ∧ (CompoundHarvest.main cfg2 env2).txs = [] := by
  constructor
  · simp only [Clanker.main]
    split_ifs <;>
      simp [claimStep_dry cfg env h1, collectStep_dry cfg env h1,
        compoundStep_dry cfg env _ _ h1, swapTransferStep_dry cfg env _ _ h1]
  · unfold CompoundHarvest.main
    split_ifs <;> simp_all [CompoundHarvest.earlyOut]

/-- Witness for C4 amended: concrete dry runs of both scripts. -/
theorem C4_dry_run_no_mutations_witness :
    (cfgSplit50Dry.dryRun = true ∧ cfgHalfSplitDry.dryRun = true) ∧
    (Clanker.main cfgSplit50Dry envClaimAndLp).txs = [] ∧
    (CompoundHarvest.main cfgHalfSplitDry inertEnv2).txs = [] :=
  ⟨⟨rfl, rfl⟩,
    C4_dry_run_no_mutations cfgSplit50Dry envClaimAndLp cfgHalfSplitDry inertEnv2 rfl rfl⟩

theorem swapToUsdc_weth_spec (senv : CompoundHarvest.SwapEnv) (amt : Int) (slip : ℚ)
    (hk : Bool) :
    CompoundHarvest.swapToUsdc senv .weth amt slip hk =
      CompoundHarvest.swapToUsdcWeth senv amt := by
  unfold CompoundHarvest.swapToUsdc CompoundHarvest.swapToUsdcWeth
  split_ifs <;> rfl

theorem swapToUsdc_weth_txs (senv : CompoundHarvest.SwapEnv) (amt : Int) (slip : ℚ)
    (hk : Bool) :
    ∀ tx ∈ (CompoundHarvest.swapToUsdc senv .weth amt slip hk).1,
      tx = MutTx.approve wethTag swapRouterTag ∨
      tx = MutTx.swapV3 wethTag usdcTag 500 amt 0 0 := by
  intro tx h
  simp only [CompoundHarvest.swapToUsdc] at h
  repeat' first
  | (split_ifs at h)
  | (dsimp only at h)
  all_goals simp only [List.mem_append, List.mem_singleton, List.not_mem_nil,
    or_false, false_or, List.nil_append] at h
  all_goals tauto

theorem swapToUsdc_txs_shape (senv : CompoundHarvest.SwapEnv)
    (tok : CompoundHarvest.SwapTok) (amt : Int) (slip : ℚ) (hk : Bool) :
    ∀ tx ∈ (CompoundHarvest.swapToUsdc senv tok amt slip hk).1,
      (∃ t s, tx = MutTx.approve t s) ∨ (∃ t s, tx = MutTx.permit2Approve t s) ∨
      (∃ zf x, tx = MutTx.swapV4 zf x 0 0) ∨
      (∃ x, tx = MutTx.swapV3 wethTag usdcTag 500 x 0 0) := by
  intro tx h
  cases tok with
  | usdc =>
      simp only [CompoundHarvest.swapToUsdc] at h
      split_ifs at h <;> simp at h
  | weth =>
      rcases swapToUsdc_weth_txs senv amt slip hk tx h with rfl | rfl
      · exact Or.inl ⟨_, _, rfl⟩
      · exact Or.inr (Or.inr (Or.inr ⟨_, rfl⟩))
  | other =>
      simp only [CompoundHarvest.swapToUsdc, CompoundHarvest.swapViaV4ToWeth,
        CompoundHarvest.swapToUsdcWeth] at h
      repeat' first
      | (split_ifs at h)
      | (dsimp only at h)
      all_goals simp only [List.mem_append, List.mem_singleton, List.not_mem_nil,
        or_false, false_or, List.nil_append] at h
      all_goals aesop

theorem addLiquidity_txs_shape (env2 : CompoundHarvest.Env) (a0 a1 : Int) :
    ∀ tx ∈ (CompoundHarvest.addLiquidity env2 a0 a1).1,
      (∃ t s, tx = MutTx.approve t s) ∨ (∃ l x y, tx = MutTx.modifyIncrease l x y) := by
  intro tx h
  unfold CompoundHarvest.addLiquidity at h
  repeat' first
  | (split_ifs at h)
  | (dsimp only at h)
  all_goals simp only [List.mem_append, List.mem_singleton, List.mem_cons,
    List.not_mem_nil, or_false, false_or, List.nil_append] at h
  all_goals aesop

theorem addLiquidity_tx_ok (env2 : CompoundHarvest.Env) (a0 a1 : Int) (tx : MutTx)
    (h : tx ∈ (CompoundHarvest.addLiquidity env2 a0 a1).1) :
    CompoundHarvest.mainTxShape env2 tx := by
  rcases addLiquidity_txs_shape env2 a0 a1 tx h with ⟨t, s, rfl⟩ | ⟨l, x, y, rfl⟩
  · exact Or.inr (Or.inl ⟨t, s, rfl⟩)
  · exact Or.inr (Or.inr (Or.inr (Or.inl ⟨l, x, y, rfl⟩)))

theorem swapToUsdc_tx_ok (env2 : CompoundHarvest.Env) (senv : CompoundHarvest.SwapEnv)
    (tok : CompoundHarvest.SwapTok) (amt : Int) (slip : ℚ) (hk : Bool) (tx : MutTx)
    (h : tx ∈ (CompoundHarvest.swapToUsdc senv tok amt slip hk).1) :
    CompoundHarvest.mainTxShape env2 tx := by
  rcases swapToUsdc_txs_shape senv tok amt slip hk tx h
    with ⟨t, s, rfl⟩ | ⟨t, s, rfl⟩ | ⟨zf, x, rfl⟩ | ⟨x, rfl⟩
  · exact Or.inr (Or.inl ⟨t, s, rfl⟩)
  · exact Or.inr (Or.inr (Or.inl ⟨t, s, rfl⟩))
  · exact Or.inr (Or.inr (Or.inr (Or.inr (Or.inl ⟨zf, x, rfl⟩))))
  · exact Or.inr (Or.inr (Or.inr (Or.inr (Or.inr (Or.inl ⟨x, rfl⟩)))))

theorem compoundMain_txs_shape (cfg2 : CompoundHarvest.Cfg) (env2 : CompoundHarvest.Env) :
    ∀ tx ∈ (CompoundHarvest.main cfg2 env2).txs, CompoundHarvest.mainTxShape env2 tx := by
  intro tx h
  unfold CompoundHarvest.main at h
  repeat' first
  | (split_ifs at h)
  | (dsimp only at h)
  all_goals simp only [CompoundHarvest.earlyOut, List.mem_append, List.mem_singleton,
    List.mem_cons, List.not_mem_nil, or_false, false_or] at h
  all_goals try (rcases h with h | h)
  all_goals try (rcases h with h | h)
  all_goals try (rcases h with h | h)
  all_goals try (rcases h with h | h)
  all_goals first
  | (exact addLiquidity_tx_ok env2 _ _ tx h)
  | (exact swapToUsdc_tx_ok env2 _ _ _ _ _ tx h)
  | (subst h
     exact Or.inl rfl)
  | (exact Or.inl rfl)
  | (exact Or.inr (Or.inr (Or.inr (Or.inr (Or.inr (Or.inr ⟨rfl, by omega⟩))))))

/-- C2: evaluation of compound-and-harvest at an input where the computed
compound liquidity is zero.  The compound step correctly issues no
increase-liquidity transaction, but its allocated amounts are NOT added
back to the harvest allocation: of the 100 wei of currency0 fees, only the
harvest remainder 50 is swapped (and its USDC proceeds transferred), while
the compound-allocated 50 stays in the wallet — despite the script logging
"continuing to harvest all fees".  The swap of the full 100 the claim
demands never appears in the trace. -/
theorem C2_compound_failure_keeps_remainder :
    (CompoundHarvest.main cfgHalfSplit envZeroLiquidity).fees0 = 100 ∧
    (CompoundHarvest.main cfgHalfSplit envZeroLiquidity).compound0 = 50 ∧
    (CompoundHarvest.main cfgHalfSplit envZeroLiquidity).harvest0 = 50 ∧
    (CompoundHarvest.main cfgHalfSplit envZeroLiquidity).compoundSuccess = false ∧
    (∀ tx ∈ (CompoundHarvest.main cfgHalfSplit envZeroLiquidity).txs,
      tx.isIncrease = false) ∧
    (CompoundHarvest.main cfgHalfSplit envZeroLiquidity).txs =
      [MutTx.modifyCollect, MutTx.swapV3 wethTag usdcTag 500 50 0 0,
        MutTx.transfer harvestAddressTag 49] ∧
    MutTx.swapV3 wethTag usdcTag 500 100 0 0 ∉
      (CompoundHarvest.main cfgHalfSplit envZeroLiquidity).txs := by
  decide

/-- C6: any vault transfer issued by either pipeline sends exactly the
USDC balance delta gained during the swap phase (balance after minus
balance before), it is only issued when that delta is positive, and both
pipelines are invariant under adding any pre-existing USDC balance to the
wallet (shifting both balance reads by the same constant) — the wallet's
pre-existing settlement-asset balance is never swept. -/
theorem C6_transfer_is_swap_delta (cfg : Clanker.Cfg) (env : Clanker.Env)
    (cfg2 : CompoundHarvest.Cfg) (env2 : CompoundHarvest.Env) (a b : Int)
    (h1 : MutTx.transfer harvestAddressTag a ∈ (Clanker.main cfg env).txs)
    (h2 : MutTx.transfer harvestAddressTag b ∈ (CompoundHarvest.main cfg2 env2).txs) :
    (a = env.usdcAfter - env.usdcBefore ∧ 0 < a) ∧
    (b = env2.usdcAfter - env2.usdcBefore ∧ 0 < b) ∧
    (∀ c : Int, Clanker.main cfg
        { env with usdcBefore := env.usdcBefore + c, usdcAfter := env.usdcAfter + c } =
      Clanker.main cfg env) ∧
    (∀ c : Int, CompoundHarvest.main cfg2
        { env2 with usdcBefore := env2.usdcBefore + c, usdcAfter := env2.usdcAfter + c } =
      CompoundHarvest.main cfg2 env2) := by
  refine ⟨?_, ?_, ?_, ?_⟩
  · rcases clankerMain_txs_split cfg env _ h1 with h | h | h | h
    · rcases claimStep_txs_shape cfg env _ h with h' | h' <;> simp at h'
    · rcases collectStep_txs_shape cfg env _ h with ⟨t, h'⟩ | h' <;> simp at h'
    · obtain ⟨l, x, y, h'⟩ := compoundStep_txs_shape cfg env _ _ _ h
      simp at h'
    · rcases swapTransferStep_txs_shape cfg env _ _ _ h with h' | h' | ⟨h', hpos⟩
      · simp at h'
      · simp at h'
      · simp only [MutTx.transfer.injEq] at h'
        exact ⟨h'.2, h'.2 ▸ hpos⟩
  · rcases compoundMain_txs_shape cfg2 env2 _ h2 with h' | ⟨t, s, h'⟩ | ⟨t, s, h'⟩ |
      ⟨l, x, y, h'⟩ | ⟨zf, x, h'⟩ | ⟨x, h'⟩ | ⟨h', hpos⟩
    · simp at h'
    · simp at h'
    · simp at h'
    · simp at h'
    · simp at h'
    · simp at h'
    · simp only [MutTx.transfer.injEq] at h'
      exact ⟨h'.2, h'.2 ▸ hpos⟩
  · intro c
    simp only [Clanker.main, Clanker.claimStep, Clanker.collectStep,
      Clanker.compoundStep, Clanker.swapTransferStep, Clanker.totalWethOf,
      Clanker.totalTokenOf, Clanker.totalUsdOf, Clanker.currency0, Clanker.currency1,
      add_sub_add_right_eq_sub]
  · intro c
    simp only [CompoundHarvest.main, CompoundHarvest.addLiquidity,
      add_sub_add_right_eq_sub]

/-- Witness for C6: concrete runs of both pipelines in which the swap
phase gains 50 respectively 4 USDC units on top of a pre-existing balance
of 7, and exactly those gains are transferred. -/
theorem C6_transfer_is_swap_delta_witness :
    (MutTx.transfer harvestAddressTag 50 ∈ (Clanker.main cfgHarvestOnly envSwapGain).txs ∧
      MutTx.transfer harvestAddressTag 4 ∈
        (CompoundHarvest.main cfgAllHarvest env2SwapGain).txs) ∧
    (50 = envSwapGain.usdcAfter - envSwapGain.usdcBefore ∧ 0 < (50 : Int)) :=
  ⟨⟨by decide, by decide⟩,
    (C6_transfer_is_swap_delta cfgHarvestOnly envSwapGain cfgAllHarvest env2SwapGain
      50 4 (by decide) (by decide)).1⟩

/-- C7: for a token with no direct venue (neither USDC nor WETH), a
positive amount and a successful V4 hop, `swapToUsdc` first issues the
V4 Universal-Router swap of the full amount (through `swapViaV4ToWeth`),
measures the WETH gained as the wallet balance delta around that hop, and
recursively invokes the direct WETH→USDC path with exactly that measured
delta (`swapToUsdcWeth`, which is `swapToUsdc` specialised to WETH); when
the measured delta is not positive, no second hop is attempted. -/
theorem C7_indirect_route (senv : CompoundHarvest.SwapEnv) (amount : Int) (slip : ℚ)
    (hamt : 0 < amount) (hok : senv.v4Ok = true) :
    (CompoundHarvest.swapToUsdc senv .other amount slip true).1 =
      (CompoundHarvest.swapViaV4ToWeth senv amount).1 ++
        (if 0 < senv.wethAfter - senv.wethBefore then
          (CompoundHarvest.swapToUsdcWeth senv (senv.wethAfter - senv.wethBefore)).1
        else []) ∧
    (∀ amt2 hk, CompoundHarvest.swapToUsdc senv .weth amt2 slip hk =
      CompoundHarvest.swapToUsdcWeth senv amt2) ∧
    MutTx.swapV4 senv.tokenIsCurrency0 amount 0 0 ∈
      (CompoundHarvest.swapViaV4ToWeth senv amount).1 ∧
    (0 < senv.wethAfter - senv.wethBefore →
      MutTx.swapV3 wethTag usdcTag 500 (senv.wethAfter - senv.wethBefore) 0 0 ∈
        (CompoundHarvest.swapToUsdcWeth senv (senv.wethAfter - senv.wethBefore)).1) ∧
    (senv.wethAfter - senv.wethBefore ≤ 0 →
      (CompoundHarvest.swapToUsdc senv .other amount slip true).1 =
        (CompoundHarvest.swapViaV4ToWeth senv amount).1) := by
  have hmain : CompoundHarvest.swapToUsdc senv .other amount slip true =
      (if ¬(CompoundHarvest.swapViaV4ToWeth senv amount).2 then
        ((CompoundHarvest.swapViaV4ToWeth senv amount).1, false)
      else if 0 < senv.wethAfter - senv.wethBefore then
        ((CompoundHarvest.swapViaV4ToWeth senv amount).1 ++
          (CompoundHarvest.swapToUsdcWeth senv (senv.wethAfter - senv.wethBefore)).1,
          (CompoundHarvest.swapToUsdcWeth senv (senv.wethAfter - senv.wethBefore)).2)
      else ((CompoundHarvest.swapViaV4ToWeth senv amount).1, true)) := by
    unfold CompoundHarvest.swapToUsdc
    rw [if_neg (by omega : ¬amount ≤ 0)]
    rfl
  have hv4ok : (CompoundHarvest.swapViaV4ToWeth senv amount).2 = true := hok
  refine ⟨?_, fun amt2 hk => swapToUsdc_weth_spec senv amt2 slip hk, ?_, ?_, ?_⟩
  · rw [hmain, if_neg (by simp [hv4ok])]
    split_ifs with hg
    · rfl
    · simp
  · unfold CompoundHarvest.swapViaV4ToWeth
    simp
  · intro hg
    unfold CompoundHarvest.swapToUsdcWeth
    rw [if_neg (by omega : ¬senv.wethAfter - senv.wethBefore ≤ 0)]
    simp
  · intro hg
    rw [hmain, if_neg (by simp [hv4ok]), if_neg (by omega : ¬0 < senv.wethAfter - senv.wethBefore)]

/-- Witness for C7 at a concrete two-hop environment: amount 100 in, 30
WETH measured as gained, second hop fed exactly 30. -/
theorem C7_indirect_route_witness :
    ((0 : Int) < 100 ∧ swapEnvTwoHop.v4Ok = true) ∧
    (CompoundHarvest.swapToUsdc swapEnvTwoHop .other 100 1 true).1 =
      (CompoundHarvest.swapViaV4ToWeth swapEnvTwoHop 100).1 ++
        (if 0 < swapEnvTwoHop.wethAfter - swapEnvTwoHop.wethBefore then
          (CompoundHarvest.swapToUsdcWeth swapEnvTwoHop
            (swapEnvTwoHop.wethAfter - swapEnvTwoHop.wethBefore)).1
        else []) :=
  ⟨⟨by decide, rfl⟩, (C7_indirect_route swapEnvTwoHop 100 1 (by decide) rfl).1⟩

/-- C9: every swap transaction either pipeline constructs — the direct
WETH→USDC `exactInputSingle` and the V4 Universal-Router hop — carries
`amountOutMinimum = 0` and `sqrtPriceLimitX96 = 0`, and `swapToUsdc`'s
output is entirely independent of the slippage-tolerance argument, so the
configured slippage percentage never constrains any swap's output. -/
theorem C9_no_slippage_protection (cfg : Clanker.Cfg) (env : Clanker.Env)
    (cfg2 : CompoundHarvest.Cfg) (env2 : CompoundHarvest.Env)
    (senv : CompoundHarvest.SwapEnv) (tok : CompoundHarvest.SwapTok)
    (amount : Int) (hk : Bool) :
    (∀ tx ∈ (Clanker.main cfg env).txs,
      (∀ m ∈ tx.minOut, m = 0) ∧ ∀ l ∈ tx.priceLimit, l = 0) ∧
    (∀ tx ∈ (CompoundHarvest.main cfg2 env2).txs,
      (∀ m ∈ tx.minOut, m = 0) ∧ ∀ l ∈ tx.priceLimit, l = 0) ∧
    (∀ s1 s2 : ℚ, CompoundHarvest.swapToUsdc senv tok amount s1 hk =
      CompoundHarvest.swapToUsdc senv tok amount s2 hk) := by
  refine ⟨?_, ?_, fun s1 s2 => rfl⟩
  · intro tx h
    rcases clankerMain_txs_split cfg env tx h with h | h | h | h
    · rcases claimStep_txs_shape cfg env tx h with rfl | rfl <;>
        simp [MutTx.minOut, MutTx.priceLimit]
    · rcases collectStep_txs_shape cfg env tx h with ⟨t, rfl⟩ | rfl <;>
        simp [MutTx.minOut, MutTx.priceLimit]
    · obtain ⟨l, x, y, rfl⟩ := compoundStep_txs_shape cfg env _ _ tx h
      simp [MutTx.minOut, MutTx.priceLimit]
    · rcases swapTransferStep_txs_shape cfg env _ _ tx h with rfl | rfl | ⟨rfl, -⟩ <;>
        simp [MutTx.minOut, MutTx.priceLimit]
  · intro tx h
    rcases compoundMain_txs_shape cfg2 env2 tx h with rfl | ⟨t, s, rfl⟩ | ⟨t, s, rfl⟩ |
      ⟨l, x, y, rfl⟩ | ⟨zf, x, rfl⟩ | ⟨x, rfl⟩ | ⟨rfl, -⟩ <;>
      simp [MutTx.minOut, MutTx.priceLimit]

/-- Witness for C9: a concrete run issuing a WETH→USDC swap, whose
`amountOutMinimum` is 0. -/
theorem C9_no_slippage_protection_witness :
    MutTx.swapV3 wethTag usdcTag 500 100 0 0 ∈ (Clanker.main cfgHarvestOnly envSwapGain).txs ∧
    ∀ m ∈ (MutTx.swapV3 wethTag usdcTag 500 100 0 0).minOut, m = 0 :=
  ⟨by decide,
    ((C9_no_slippage_protection cfgHarvestOnly envSwapGain cfgAllHarvest env2SwapGain
      swapEnvTwoHop .other 100 true).1 _ (by decide)).1⟩

end MoltbotSkills
